import Mathlib

/-!
Verification of the SimpleLockup linear-vesting contract
(src/contracts/SimpleLockup.sol, the single-lockup shape).

The contract is shallowly embedded over `Nat`:
* `uint256` values are `Nat`; Solidity division is `Nat` floor division.
* `Math.mulDiv` (OpenZeppelin) is modelled by `mulDiv`, which returns `none`
  exactly when Solidity reverts (zero denominator, or a result that does not
  fit in 256 bits); otherwise it returns the exact mathematical
  `a * b / d`, computed on the full-width product.
* The `uint64` cast of `block.timestamp` in `createLockup` is modelled by
  `% 2 ^ 64`.  The `uint64` additions `startTime + cliffDuration` and
  `startTime + vestingDuration` are modelled as exact `Nat` additions;
  Solidity 0.8 would revert on them only when the sum reaches `2 ^ 64`,
  which requires a timestamp within `MAX_VESTING_DURATION` of `2 ^ 64`.
* Fallible entry points return `Except Error State`; a revert rolls back all
  state writes, so an operation is modelled as its committed net effect.
-/

namespace SimpleLockup

/-- Struct `LockupInfo` of SimpleLockup.sol (amounts `uint256`,
times `uint64`, flags `bool`). -/
structure LockupInfo where
  totalAmount : Nat
  releasedAmount : Nat
  startTime : Nat
  cliffDuration : Nat
  vestingDuration : Nat
  revocable : Bool
  revoked : Bool
  vestedAtRevoke : Nat
deriving DecidableEq, Repr

/-- Default-initialized storage: all fields zero / false. -/
def emptyLockup : LockupInfo :=
  { totalAmount := 0, releasedAmount := 0, startTime := 0, cliffDuration := 0
    vestingDuration := 0, revocable := false, revoked := false, vestedAtRevoke := 0 }

/-- Contract storage: `beneficiary` (an address, `0` = the zero address)
and the single `lockupInfo` record. -/
structure State where
  beneficiary : Nat
  lockupInfo : LockupInfo
deriving DecidableEq, Repr

/-- Storage right after deployment. -/
def initialState : State := { beneficiary := 0, lockupInfo := emptyLockup }

/-- The custom errors of the contract that the modelled paths can raise.
(`InsufficientTokensReceived` carries `(received, expected)` in Solidity;
the arguments play no role in the claims and are dropped.) -/
inductive Error where
  | InvalidAmount
  | InvalidDuration
  | InvalidBeneficiary
  | LockupAlreadyExists
  | NoLockupFound
  | NoTokensAvailable
  | NotRevocable
  | AlreadyRevoked
  | NotBeneficiary
  | InsufficientBalance
  | InsufficientAllowance
  | InsufficientTokensReceived
  | NothingToRevoke
deriving DecidableEq, Repr

/-- `MAX_VESTING_DURATION = 10 * 365 days` (in seconds). -/
def MAX_VESTING_DURATION : Nat := 10 * 365 * 86400

/-- Size bound of `uint256`. -/
def UINT256_BOUND : Nat := 2 ^ 256

/-- OpenZeppelin `Math.mulDiv(a, b, d)`: the exact floor of the rational
`a * b / d`, computed via a 512-bit intermediate product.  It reverts
(`none`) precisely when `d = 0` or the true quotient does not fit in 256
bits; a large 512-bit product alone does not make it revert. -/
def mulDiv (a b d : Nat) : Option Nat :=
  if d = 0 then none
  else if UINT256_BOUND ≤ a * b / d then none
  else some (a * b / d)

/-- `_vestedAmount()` of SimpleLockup.sol, as the exact value it computes
(the `mulDiv` call never reverts there; `vestedAmountChecked` below models
the revert conditions explicitly and is proved to agree). -/
def vestedAmount (l : LockupInfo) (now : Nat) : Nat :=
  if l.totalAmount = 0 then 0
  else if l.revoked then l.vestedAtRevoke
  else if now < l.startTime + l.cliffDuration then 0
  else if l.startTime + l.vestingDuration ≤ now then l.totalAmount
  else l.totalAmount * (now - l.startTime) / l.vestingDuration

/-- `_vestedAmount()` with the `Math.mulDiv` revert behaviour kept
explicit: `none` would be a revert of the view call. -/
def vestedAmountChecked (l : LockupInfo) (now : Nat) : Option Nat :=
  if l.totalAmount = 0 then some 0
  else if l.revoked then some l.vestedAtRevoke
  else if now < l.startTime + l.cliffDuration then some 0
  else if l.startTime + l.vestingDuration ≤ now then some l.totalAmount
  else mulDiv l.totalAmount (now - l.startTime) l.vestingDuration

/-- `_releasableAmount()` of SimpleLockup.sol.  Solidity would revert on
`vested - releasedAmount` underflowing; `Nat` subtraction truncates to `0`
instead, and in both semantics the enclosing `release()` then has no
effect (it reverts either way, with `NoTokensAvailable` here). -/
def releasableAmount (l : LockupInfo) (now : Nat) : Nat :=
  if l.revoked = false ∧ l.startTime + l.vestingDuration ≤ now then
    l.totalAmount - l.releasedAmount
  else
    vestedAmount l now - l.releasedAmount

/-- `getVestingProgress()` of SimpleLockup.sol. -/
def getVestingProgress (l : LockupInfo) (now : Nat) : Nat :=
  if l.totalAmount = 0 then 0
  else if l.revoked then 100
  else if now < l.startTime + l.cliffDuration then 0
  else if l.startTime + l.vestingDuration ≤ now then 100
  else (now - l.startTime) * 100 / l.vestingDuration

/-- Environment of a `createLockup` call: the contract's own address and
what the external token reports (owner balance, allowance, and the actual
balance delta received by the transfer). -/
structure Env where
  self : Nat
  ownerBalance : Nat
  allowance : Nat
  actualReceived : Nat
deriving DecidableEq, Repr

/-- `createLockup(_beneficiary, amount, cliffDuration, vestingDuration,
revocable)` of SimpleLockup.sol, checks in source order.  The
`actualReceived < amount` check happens after the state write in the
source, but its revert rolls the write back, so the committed effect is as
modelled.  `onlyOwner` gating is an external identity check and is not
modelled (the claims quantify over all calls, which is stronger). -/
def createLockup (e : Env) (b amount cliff vd : Nat) (revocable : Bool)
    (now : Nat) (s : State) : Except Error State :=
  if s.beneficiary ≠ 0 then .error .LockupAlreadyExists
  else if amount = 0 then .error .InvalidAmount
  else if vd = 0 then .error .InvalidDuration
  else if vd ≤ cliff then .error .InvalidDuration
  else if MAX_VESTING_DURATION < vd then .error .InvalidDuration
  else if b = 0 then .error .InvalidBeneficiary
  else if b = e.self then .error .InvalidBeneficiary
  else if e.ownerBalance < amount then .error .InsufficientBalance
  else if e.allowance < amount then .error .InsufficientAllowance
  else if e.actualReceived < amount then .error .InsufficientTokensReceived
  else .ok
    { beneficiary := b
      lockupInfo :=
        { totalAmount := amount, releasedAmount := 0
          startTime := now % 2 ^ 64, cliffDuration := cliff
          vestingDuration := vd, revocable := revocable
          revoked := false, vestedAtRevoke := 0 } }

/-- `release()` of SimpleLockup.sol (caller is `msg.sender`). -/
def release (caller now : Nat) (s : State) : Except Error State :=
  if caller ≠ s.beneficiary then .error .NotBeneficiary
  else if s.lockupInfo.totalAmount = 0 then .error .NoLockupFound
  else if releasableAmount s.lockupInfo now = 0 then .error .NoTokensAvailable
  else .ok { s with lockupInfo :=
    { s.lockupInfo with releasedAmount :=
        s.lockupInfo.releasedAmount + releasableAmount s.lockupInfo now } }

/-- The `vested` local of `revoke()` after its defensive clamp
(`if (vested > lockupInfo.totalAmount) vested = lockupInfo.totalAmount`). -/
def clampedVested (l : LockupInfo) (now : Nat) : Nat :=
  if l.totalAmount < vestedAmount l now then l.totalAmount else vestedAmount l now

/-- `revoke()` of SimpleLockup.sol.  The refund `totalAmount - vested` is
paid to the owner by the external token; the state effect is as modelled. -/
def revoke (now : Nat) (s : State) : Except Error State :=
  if s.lockupInfo.totalAmount = 0 then .error .NoLockupFound
  else if s.lockupInfo.revoked then .error .AlreadyRevoked
  else if s.lockupInfo.revocable = false then .error .NotRevocable
  else if s.lockupInfo.totalAmount - clampedVested s.lockupInfo now = 0 then
    .error .NothingToRevoke
  else .ok { s with lockupInfo :=
    { s.lockupInfo with
        revoked := true
        vestedAtRevoke := clampedVested s.lockupInfo now } }

/-- One external call to the contract. -/
inductive Op where
  | create (e : Env) (b amount cliff vd : Nat) (revocable : Bool) (now : Nat)
  | release (caller now : Nat)
  | revoke (now : Nat)

/-- Dispatch an operation. -/
def applyOp (op : Op) (s : State) : Except Error State :=
  match op with
  | .create e b amount cliff vd revocable now => createLockup e b amount cliff vd revocable now s
  | .release caller now => release caller now s
  | .revoke now => revoke now s

/-- The state after an external call: a revert leaves storage unchanged. -/
def step (op : Op) (s : State) : State :=
  match applyOp op s with
  | .ok s' => s'
  | .error _ => s

/-- The state reached from deployment by a sequence of calls. -/
def run (ops : List Op) : State :=
  ops.foldl (fun s op => step op s) initialState

/-- Sample environment for concrete instantiations. -/
def sampleEnv : Env :=
  { self := 99, ownerBalance := 1000000, allowance := 1000000, actualReceived := 1000000 }

/-- The record of spec Scenario A: 1000 units, no cliff, 1000-second
linear vesting, revocable. -/
def scenarioA : LockupInfo :=
  { totalAmount := 1000, releasedAmount := 0, startTime := 0, cliffDuration := 0
    vestingDuration := 1000, revocable := true, revoked := false, vestedAtRevoke := 0 }

/-- State invariant maintained by every reachable state. -/
def Inv (s : State) : Prop :=
  s.lockupInfo.releasedAmount ≤ s.lockupInfo.totalAmount ∧
  s.lockupInfo.vestedAtRevoke ≤ s.lockupInfo.totalAmount ∧
  (s.beneficiary = 0 → s.lockupInfo = emptyLockup) ∧
  (s.lockupInfo.totalAmount ≠ 0 → s.beneficiary ≠ 0) ∧
  (s.lockupInfo.revoked = false → s.lockupInfo.vestedAtRevoke = 0) ∧
  (s.lockupInfo.revoked = true → s.lockupInfo.totalAmount ≠ 0) ∧
  (s.lockupInfo.totalAmount ≠ 0 →
    s.lockupInfo.cliffDuration < s.lockupInfo.vestingDuration)

/-- The vested amount never exceeds `totalAmount`, provided the frozen
snapshot respects that bound. -/
theorem vested_le_total (l : LockupInfo) (now : Nat)
    (hva : l.vestedAtRevoke ≤ l.totalAmount) :
    vestedAmount l now ≤ l.totalAmount := by
  unfold vestedAmount
  split_ifs with h0 hr hc hv
  · omega
  · exact hva
  · omega
  · exact Nat.le_refl _
  · have hvd : 0 < l.vestingDuration := by omega
    calc l.totalAmount * (now - l.startTime) / l.vestingDuration
        ≤ l.totalAmount * l.vestingDuration / l.vestingDuration := by
          apply Nat.div_le_div_right
          exact Nat.mul_le_mul_left _ (by omega)
      _ = l.totalAmount := Nat.mul_div_cancel _ hvd

/-- The clamped vested amount of `revoke()` is bounded by the total. -/
theorem clampedVested_le (l : LockupInfo) (now : Nat) :
    clampedVested l now ≤ l.totalAmount := by
  unfold clampedVested
  split_ifs <;> omega

/-- One release never pushes the cumulative released amount past the
total. -/
theorem releasable_le (l : LockupInfo) (now : Nat)
    (h1 : l.releasedAmount ≤ l.totalAmount)
    (h2 : l.vestedAtRevoke ≤ l.totalAmount) :
    l.releasedAmount + releasableAmount l now ≤ l.totalAmount := by
  have hv := vested_le_total l now h2
  unfold releasableAmount
  split_ifs <;> omega

/-- Claim C1: `_vestedAmount` returns `0` when no record exists
(`totalAmount = 0`); the frozen `vestedAtRevoke` when revoked; `0` before
the cliff ends; the full `totalAmount` at or after vesting completion; and
otherwise exactly `floor(totalAmount * (now - startTime) /
vestingDuration)`, the cases tried in this order. -/
theorem vestedAmount_cases (l : LockupInfo) (now : Nat) :
    (l.totalAmount = 0 → vestedAmount l now = 0) ∧
    (l.totalAmount ≠ 0 → l.revoked = true →
      vestedAmount l now = l.vestedAtRevoke) ∧
    (l.totalAmount ≠ 0 → l.revoked = false →
      now < l.startTime + l.cliffDuration → vestedAmount l now = 0) ∧
    (l.totalAmount ≠ 0 → l.revoked = false →
      l.startTime + l.cliffDuration ≤ now →
      l.startTime + l.vestingDuration ≤ now →
      vestedAmount l now = l.totalAmount) ∧
    (l.totalAmount ≠ 0 → l.revoked = false →
      l.startTime + l.cliffDuration ≤ now →
      now < l.startTime + l.vestingDuration →
      vestedAmount l now =
        l.totalAmount * (now - l.startTime) / l.vestingDuration) := by
  refine ⟨?_, ?_, ?_, ?_, ?_⟩ <;> intros <;> unfold vestedAmount <;>
    split_ifs <;> simp_all <;> omega

/-- Concrete instance of claim C1: Scenario A halfway through vesting. -/
theorem vestedAmount_cases_witness :
    vestedAmount scenarioA 500 = 1000 * (500 - 0) / 1000 :=
  (vestedAmount_cases scenarioA 500).2.2.2.2 (by decide) (by decide)
    (by decide) (by decide)

/-- Claim C9: `getVestingProgress` returns `0` with no record, `100` when
revoked, `0` before the cliff ends, `100` at or after vesting completion,
and otherwise `floor((now - startTime) * 100 / vestingDuration)` — elapsed
time measured from `startTime`, not renormalized to the post-cliff
window. -/
theorem getVestingProgress_cases (l : LockupInfo) (now : Nat) :
    (l.totalAmount = 0 → getVestingProgress l now = 0) ∧
    (l.totalAmount ≠ 0 → l.revoked = true → getVestingProgress l now = 100) ∧
    (l.totalAmount ≠ 0 → l.revoked = false →
      now < l.startTime + l.cliffDuration → getVestingProgress l now = 0) ∧
    (l.totalAmount ≠ 0 → l.revoked = false →
      l.startTime + l.cliffDuration ≤ now →
      l.startTime + l.vestingDuration ≤ now →
      getVestingProgress l now = 100) ∧
    (l.totalAmount ≠ 0 → l.revoked = false →
      l.startTime + l.cliffDuration ≤ now →
      now < l.startTime + l.vestingDuration →
      getVestingProgress l now =
        (now - l.startTime) * 100 / l.vestingDuration) := by
  refine ⟨?_, ?_, ?_, ?_, ?_⟩ <;> intros <;> unfold getVestingProgress <;>
    split_ifs <;> simp_all <;> omega

/-- Concrete instance of claim C9: a 100-second cliff, progress at
`now = 500` is `50`, measured from `startTime`. -/
theorem getVestingProgress_cases_witness :
    getVestingProgress
      { totalAmount := 1000, releasedAmount := 0, startTime := 0
        cliffDuration := 100, vestingDuration := 1000, revocable := true
        revoked := false, vestedAtRevoke := 0 } 500 = (500 - 0) * 100 / 1000 :=
  (getVestingProgress_cases
    { totalAmount := 1000, releasedAmount := 0, startTime := 0
      cliffDuration := 100, vestingDuration := 1000, revocable := true
      revoked := false, vestedAtRevoke := 0 } 500).2.2.2.2
    (by decide) (by decide) (by decide) (by decide)

/-- Claim C8: for a fixed non-revoked record, the vested amount is
monotone in time. -/
theorem vestedAmount_monotone (l : LockupInfo) (hrev : l.revoked = false)
    (t1 t2 : Nat) (h12 : t1 ≤ t2) :
    vestedAmount l t1 ≤ vestedAmount l t2 := by
  unfold vestedAmount
  split_ifs with h0 hr hc1 hv1 hr hc1 hc2 hv2 hc2 hv2
  any_goals omega
  any_goals exact Nat.zero_le _
  · -- t1 in the gradual window, t2 at or past completion
    have hvd : 0 < l.vestingDuration := by omega
    calc l.totalAmount * (t1 - l.startTime) / l.vestingDuration
        ≤ l.totalAmount * l.vestingDuration / l.vestingDuration := by
          apply Nat.div_le_div_right
          exact Nat.mul_le_mul_left _ (by omega)
      _ = l.totalAmount := Nat.mul_div_cancel _ hvd
  · -- both times in the gradual window
    apply Nat.div_le_div_right
    exact Nat.mul_le_mul_left _ (by omega)

/-- Concrete instance of claim C8 on Scenario A. -/
theorem vestedAmount_monotone_witness :
    vestedAmount scenarioA 300 ≤ vestedAmount scenarioA 700 :=
  vestedAmount_monotone scenarioA (by decide) 300 700 (by decide)

/-- Claim C4: in the gradual phase the `Math.mulDiv` call cannot revert —
the quotient `totalAmount * (now - startTime) / vestingDuration` always
fits in 256 bits because it is at most `totalAmount` — and it returns the
exact floor of the full-width product divided by the duration. -/
theorem vested_mulDiv_no_overflow (l : LockupInfo) (now : Nat)
    (htot : l.totalAmount ≠ 0) (hbound : l.totalAmount < UINT256_BOUND)
    (hrev : l.revoked = false)
    (hc : l.startTime + l.cliffDuration ≤ now)
    (hv : now < l.startTime + l.vestingDuration) :
    vestedAmountChecked l now =
      some (l.totalAmount * (now - l.startTime) / l.vestingDuration) := by
  have hvd : 0 < l.vestingDuration := by omega
  have hle : l.totalAmount * (now - l.startTime) / l.vestingDuration
      ≤ l.totalAmount := by
    calc l.totalAmount * (now - l.startTime) / l.vestingDuration
        ≤ l.totalAmount * l.vestingDuration / l.vestingDuration := by
          apply Nat.div_le_div_right
          exact Nat.mul_le_mul_left _ (by omega)
      _ = l.totalAmount := Nat.mul_div_cancel _ hvd
  unfold vestedAmountChecked mulDiv
  split_ifs <;> simp_all <;> omega

/-- A maximal-amount record: the 512-bit product overflows 256 bits in the
gradual phase. -/
def bigLockup : LockupInfo :=
  { totalAmount := 2 ^ 256 - 1, releasedAmount := 0, startTime := 0
    cliffDuration := 0, vestingDuration := 4, revocable := false
    revoked := false, vestedAtRevoke := 0 }

/-- Concrete instance of claim C4: with `totalAmount = 2 ^ 256 - 1` and
two seconds elapsed the raw product exceeds `2 ^ 256 - 1`, yet the checked
computation succeeds with the exact quotient. -/
theorem vested_mulDiv_no_overflow_witness :
    UINT256_BOUND ≤ (2 ^ 256 - 1) * (2 - 0) ∧
    vestedAmountChecked bigLockup 2 = some ((2 ^ 256 - 1) * (2 - 0) / 4) :=
  ⟨by decide,
    vested_mulDiv_no_overflow bigLockup 2 (by decide) (by decide)
      (by decide) (by decide) (by decide)⟩

/-- Claim C2: for a non-revoked record at or past vesting completion, the
releasable amount is exactly the remainder `totalAmount -
releasedAmount`, and a successful `release()` then leaves
`releasedAmount = totalAmount`, whatever rounding happened earlier. -/
theorem releasable_complete_no_dust (s : State) (caller now : Nat)
    (hrev : s.lockupInfo.revoked = false)
    (hcomp : s.lockupInfo.startTime + s.lockupInfo.vestingDuration ≤ now)
    (hle : s.lockupInfo.releasedAmount ≤ s.lockupInfo.totalAmount) :
    releasableAmount s.lockupInfo now + s.lockupInfo.releasedAmount =
      s.lockupInfo.totalAmount ∧
    (∀ s', release caller now s = Except.ok s' →
      s'.lockupInfo.releasedAmount = s.lockupInfo.totalAmount) := by
  have h1 : releasableAmount s.lockupInfo now =
      s.lockupInfo.totalAmount - s.lockupInfo.releasedAmount := by
    unfold releasableAmount
    rw [if_pos ⟨hrev, hcomp⟩]
  refine ⟨by omega, ?_⟩
  intro s' hok
  unfold release at hok
  split_ifs at hok
  injection hok with h
  subst h
  simp only [h1]
  omega

/-- Concrete instance of claim C2: Scenario A with 300 units already
released, queried after completion. -/
theorem releasable_complete_no_dust_witness :
    releasableAmount { scenarioA with releasedAmount := 300 } 2000 + 300 = 1000 ∧
    (∀ s', release 1 2000
        { beneficiary := 1, lockupInfo := { scenarioA with releasedAmount := 300 } }
        = Except.ok s' → s'.lockupInfo.releasedAmount = 1000) :=
  releasable_complete_no_dust
    { beneficiary := 1, lockupInfo := { scenarioA with releasedAmount := 300 } }
    1 2000 (by decide) (by decide) (by decide)

/-- A reverted call leaves storage unchanged. -/
theorem step_of_error (op : Op) (s : State) (e : Error)
    (h : applyOp op s = .error e) : step op s = s := by
  simp [step, h]

/-- A committed call yields the returned storage. -/
theorem step_of_ok (op : Op) (s : State) (s' : State)
    (h : applyOp op s = .ok s') : step op s = s' := by
  simp [step, h]

set_option maxHeartbeats 1000000 in
/-- A successful `createLockup` preserves the state invariant. -/
theorem createLockup_ok_inv (e : Env) (b amount cliff vd : Nat) (r : Bool)
    (now : Nat) (s s' : State)
    (h : createLockup e b amount cliff vd r now s = .ok s') : Inv s' := by
  unfold createLockup at h
  split_ifs at h with h1 h2 h3 h4 h5 h6 h7 h8 h9 h10
  injection h with h
  subst h
  exact ⟨Nat.zero_le _, Nat.zero_le _, fun hb => absurd hb h6, fun _ => h6,
    fun _ => rfl, fun hcon => Bool.noConfusion hcon,
    fun _ => show cliff < vd by omega⟩

/-- A successful `release` preserves the state invariant. -/
theorem release_ok_inv (caller now : Nat) (s s' : State) (hs : Inv s)
    (h : release caller now s = .ok s') : Inv s' := by
  obtain ⟨i1, i2, i3, i4, i5, i6, i7⟩ := hs
  unfold release at h
  split_ifs at h with h1 h2 h3
  injection h with h
  subst h
  have hb := releasable_le s.lockupInfo now i1 i2
  exact ⟨hb, i2, fun hb0 => absurd hb0 (i4 h2), fun _ => i4 h2, i5, i6, i7⟩

/-- A successful `revoke` preserves the state invariant. -/
theorem revoke_ok_inv (now : Nat) (s s' : State) (hs : Inv s)
    (h : revoke now s = .ok s') : Inv s' := by
  obtain ⟨i1, i2, i3, i4, i5, i6, i7⟩ := hs
  unfold revoke at h
  split_ifs at h with h1 h2 h3 h4
  injection h with h
  subst h
  exact ⟨i1, clampedVested_le s.lockupInfo now, fun hb => absurd hb (i4 h1),
    fun _ => i4 h1, fun hcon => Bool.noConfusion hcon, fun _ => h1, i7⟩

/-- Every call — committed or reverted — preserves the state invariant. -/
theorem inv_step (op : Op) (s : State) (hs : Inv s) : Inv (step op s) := by
  cases hok : applyOp op s with
  | error e => rw [step_of_error op s e hok]; exact hs
  | ok s' =>
    rw [step_of_ok op s s' hok]
    cases op with
    | create e b amount cliff vd r now =>
        exact createLockup_ok_inv e b amount cliff vd r now s s' hok
    | release caller now => exact release_ok_inv caller now s s' hs hok
    | revoke now => exact revoke_ok_inv now s s' hs hok

/-- The deployment state satisfies the invariant. -/
theorem inv_initial : Inv initialState := by
  refine ⟨?_, ?_, ?_, ?_, ?_, ?_, ?_⟩ <;> simp [initialState, emptyLockup]

/-- The invariant propagates through any suffix of a run. -/
theorem inv_foldl (ops : List Op) :
    ∀ s : State, Inv s → Inv (ops.foldl (fun s op => step op s) s) := by
  induction ops with
  | nil => intro s hs; exact hs
  | cons op ops ih => intro s hs; exact ih (step op s) (inv_step op s hs)

/-- Every reachable state satisfies the invariant. -/
theorem inv_run (ops : List Op) : Inv (run ops) :=
  inv_foldl ops initialState inv_initial

set_option maxHeartbeats 1000000 in
/-- No call decreases the cumulative released amount of an
invariant-respecting state. -/
theorem step_released_mono (op : Op) (s : State) (hs : Inv s) :
    s.lockupInfo.releasedAmount ≤ (step op s).lockupInfo.releasedAmount := by
  cases hok : applyOp op s with
  | error e => rw [step_of_error op s e hok]
  | ok s' =>
    rw [step_of_ok op s s' hok]
    cases op with
    | create e b amount cliff vd r now =>
        simp only [applyOp] at hok
        unfold createLockup at hok
        split_ifs at hok with h1 h2 h3 h4 h5 h6 h7 h8 h9 h10
        have hb : s.beneficiary = 0 := by omega
        have hemp := hs.2.2.1 hb
        injection hok with hok
        subst hok
        simp [hemp, emptyLockup]
    | release caller now =>
        simp only [applyOp] at hok
        unfold release at hok
        split_ifs at hok
        injection hok with hok
        subst hok
        simp
    | revoke now =>
        simp only [applyOp] at hok
        unfold revoke at hok
        split_ifs at hok
        injection hok with hok
        subst hok
        simp

/-- Claim C3: in every state reachable from deployment by any sequence of
`createLockup`, `release`, `revoke` calls, `releasedAmount ≤ totalAmount`
holds, and no further call ever decreases `releasedAmount`. -/
theorem released_le_total_invariant (ops : List Op) :
    (run ops).lockupInfo.releasedAmount ≤ (run ops).lockupInfo.totalAmount ∧
    ∀ op : Op, (run ops).lockupInfo.releasedAmount ≤
      (step op (run ops)).lockupInfo.releasedAmount :=
  ⟨(inv_run ops).1, fun op => step_released_mono op (run ops) (inv_run ops)⟩

set_option maxHeartbeats 1000000 in
/-- No call sets `revoked` back to `false` or changes `vestedAtRevoke`
once a reachable record is revoked. -/
theorem step_preserves_revoked (op : Op) (s : State) (hs : Inv s)
    (hrev : s.lockupInfo.revoked = true) :
    (step op s).lockupInfo.revoked = true ∧
    (step op s).lockupInfo.vestedAtRevoke = s.lockupInfo.vestedAtRevoke := by
  cases hok : applyOp op s with
  | error e => rw [step_of_error op s e hok]; exact ⟨hrev, rfl⟩
  | ok s' =>
    rw [step_of_ok op s s' hok]
    cases op with
    | create e b amount cliff vd r now =>
        simp only [applyOp] at hok
        unfold createLockup at hok
        split_ifs at hok with h1 h2 h3 h4 h5 h6 h7 h8 h9 h10
        exfalso
        have hb : s.beneficiary = 0 := by omega
        have hemp := hs.2.2.1 hb
        rw [hemp] at hrev
        simp [emptyLockup] at hrev
    | release caller now =>
        simp only [applyOp] at hok
        unfold release at hok
        split_ifs at hok
        injection hok with hok
        subst hok
        exact ⟨hrev, rfl⟩
    | revoke now =>
        simp only [applyOp] at hok
        unfold revoke at hok
        split_ifs at hok

/-- Claim C5: once a reachable record is revoked, its vested amount is the
stored `vestedAtRevoke` snapshot at every query time, so time has no
further effect, and no subsequent call changes the snapshot or clears the
flag (only `revoke` ever writes `vestedAtRevoke`, and it refuses to run
twice). -/
theorem revoked_freezes_vesting (ops : List Op) (op : Op) (t1 t2 : Nat)
    (hrev : (run ops).lockupInfo.revoked = true) :
    vestedAmount (run ops).lockupInfo t1 = (run ops).lockupInfo.vestedAtRevoke ∧
    vestedAmount (run ops).lockupInfo t1 = vestedAmount (run ops).lockupInfo t2 ∧
    (step op (run ops)).lockupInfo.vestedAtRevoke =
      (run ops).lockupInfo.vestedAtRevoke ∧
    (step op (run ops)).lockupInfo.revoked = true := by
  have hinv := inv_run ops
  have htot : (run ops).lockupInfo.totalAmount ≠ 0 := hinv.2.2.2.2.2.1 hrev
  have hv : ∀ t, vestedAmount (run ops).lockupInfo t =
      (run ops).lockupInfo.vestedAtRevoke := by
    intro t
    unfold vestedAmount
    rw [if_neg htot, if_pos hrev]
  have hp := step_preserves_revoked op (run ops) hinv hrev
  exact ⟨hv t1, (hv t1).trans (hv t2).symm, hp.2, hp.1⟩

/-- Concrete instance of claim C5: Scenario A revoked midway, probed with
a later release and two later query times. -/
theorem revoked_freezes_vesting_witness :
    vestedAmount (run [Op.create sampleEnv 1 1000 0 1000 true 0,
        Op.revoke 500]).lockupInfo 700 =
      (run [Op.create sampleEnv 1 1000 0 1000 true 0,
        Op.revoke 500]).lockupInfo.vestedAtRevoke ∧
    vestedAmount (run [Op.create sampleEnv 1 1000 0 1000 true 0,
        Op.revoke 500]).lockupInfo 700 =
      vestedAmount (run [Op.create sampleEnv 1 1000 0 1000 true 0,
        Op.revoke 500]).lockupInfo 900 ∧
    (step (Op.release 1 600) (run [Op.create sampleEnv 1 1000 0 1000 true 0,
        Op.revoke 500])).lockupInfo.vestedAtRevoke =
      (run [Op.create sampleEnv 1 1000 0 1000 true 0,
        Op.revoke 500]).lockupInfo.vestedAtRevoke ∧
    (step (Op.release 1 600) (run [Op.create sampleEnv 1 1000 0 1000 true 0,
        Op.revoke 500])).lockupInfo.revoked = true :=
  revoked_freezes_vesting [Op.create sampleEnv 1 1000 0 1000 true 0,
    Op.revoke 500] (Op.release 1 600) 700 900 (by decide)

/-- Claim C6: on an existing, revocable, not-yet-revoked record, `revoke`
reverts with `NothingToRevoke` and leaves the record untouched when the
computed refund is zero, and otherwise commits, setting `revoked` and
storing the clamped vested amount in `vestedAtRevoke` (the refund
`totalAmount - vested > 0` is then paid out). -/
theorem revoke_zero_refund_rejected (s : State) (now : Nat)
    (h0 : s.lockupInfo.totalAmount ≠ 0) (h1 : s.lockupInfo.revoked = false)
    (h2 : s.lockupInfo.revocable = true) :
    (s.lockupInfo.totalAmount - clampedVested s.lockupInfo now = 0 →
      revoke now s = Except.error Error.NothingToRevoke ∧
      step (Op.revoke now) s = s) ∧
    (s.lockupInfo.totalAmount - clampedVested s.lockupInfo now ≠ 0 →
      revoke now s = Except.ok { s with lockupInfo :=
        { s.lockupInfo with
            revoked := true
            vestedAtRevoke := clampedVested s.lockupInfo now } }) := by
  constructor
  · intro hz
    have herr : revoke now s = Except.error Error.NothingToRevoke := by
      unfold revoke
      rw [if_neg h0, if_neg (by simp [h1]), if_neg (by simp [h2]), if_pos hz]
    refine ⟨herr, step_of_error _ s Error.NothingToRevoke ?_⟩
    simpa only [applyOp] using herr
  · intro hz
    unfold revoke
    rw [if_neg h0, if_neg (by simp [h1]), if_neg (by simp [h2]), if_neg hz]

/-- Concrete instance of claim C6: a fully vested revocable record has a
zero refund, so `revoke` is rejected and storage is unchanged. -/
theorem revoke_zero_refund_rejected_witness :
    revoke 2000 { beneficiary := 1, lockupInfo := scenarioA } =
      Except.error Error.NothingToRevoke ∧
    step (Op.revoke 2000) { beneficiary := 1, lockupInfo := scenarioA } =
      { beneficiary := 1, lockupInfo := scenarioA } :=
  (revoke_zero_refund_rejected { beneficiary := 1, lockupInfo := scenarioA }
    2000 (by decide) (by decide) (by decide)).1 (by decide)

/-- Counterexample to claim C7 as stated: with the beneficiary slot free
and `cliffDuration = vestingDuration = 5` but `amount = 0`, `createLockup`
fails with `InvalidAmount`, not `InvalidDuration` — the amount check runs
before the duration comparison. -/
theorem create_cliff_eq_vesting_error_kind_cex :
    ((5 : Nat) ≤ 5) ∧
    createLockup sampleEnv 1 0 5 5 false 0 initialState =
      Except.error Error.InvalidAmount ∧
    Error.InvalidAmount ≠ Error.InvalidDuration :=
  ⟨by decide, rfl, by decide⟩

/-- Claim C7 (amended): every `createLockup` call with `cliffDuration ≥
vestingDuration` fails and has no effect; when the beneficiary slot is
free and `amount ≠ 0` the failure is specifically `InvalidDuration`; and
no reachable record ever has `cliffDuration ≥ vestingDuration`. -/
theorem create_cliff_ge_vesting_rejected (e : Env) (b amount cliff vd : Nat)
    (r : Bool) (now : Nat) (s : State) (h : vd ≤ cliff) :
    (∃ err, createLockup e b amount cliff vd r now s = Except.error err) ∧
    step (Op.create e b amount cliff vd r now) s = s ∧
    (s.beneficiary = 0 → amount ≠ 0 →
      createLockup e b amount cliff vd r now s =
        Except.error Error.InvalidDuration) ∧
    (∀ ops : List Op, (run ops).lockupInfo.totalAmount ≠ 0 →
      (run ops).lockupInfo.cliffDuration <
        (run ops).lockupInfo.vestingDuration) := by
  have herr : ∃ err, createLockup e b amount cliff vd r now s =
      Except.error err := by
    unfold createLockup
    split_ifs <;> exact ⟨_, rfl⟩
  obtain ⟨err, herr'⟩ := herr
  refine ⟨⟨err, herr'⟩, step_of_error _ s err (by simpa only [applyOp] using herr'),
    ?_, fun ops ht => (inv_run ops).2.2.2.2.2.2 ht⟩
  intro hb ha
  unfold createLockup
  split_ifs <;> first | rfl | omega

/-- Concrete instance of claim C7 (amended) at
`cliffDuration = vestingDuration = 5`. -/
theorem create_cliff_ge_vesting_rejected_witness :
    (∃ err, createLockup sampleEnv 2 7 5 5 false 0 initialState =
      Except.error err) ∧
    step (Op.create sampleEnv 2 7 5 5 false 0) initialState = initialState ∧
    (initialState.beneficiary = 0 → (7 : Nat) ≠ 0 →
      createLockup sampleEnv 2 7 5 5 false 0 initialState =
        Except.error Error.InvalidDuration) ∧
    (∀ ops : List Op, (run ops).lockupInfo.totalAmount ≠ 0 →
      (run ops).lockupInfo.cliffDuration <
        (run ops).lockupInfo.vestingDuration) :=
  create_cliff_ge_vesting_rejected sampleEnv 2 7 5 5 false 0 initialState
    (by decide)

/-- Claim C10: `release` compares the caller against `beneficiary` before
checking record existence, so while no lockup has ever been created
(`beneficiary` is the zero address, which no real caller equals) it fails
with `NotBeneficiary` — not `NoLockupFound` — and changes nothing. -/
theorem release_not_beneficiary_before_no_lockup (s : State)
    (caller now : Nat) (hb : s.beneficiary = 0) (hc : caller ≠ 0) :
    release caller now s = Except.error Error.NotBeneficiary ∧
    step (Op.release caller now) s = s := by
  have herr : release caller now s = Except.error Error.NotBeneficiary := by
    unfold release
    rw [if_pos (by omega)]
  exact ⟨herr, step_of_error _ s Error.NotBeneficiary
    (by simpa only [applyOp] using herr)⟩

/-- Concrete instance of claim C10 at the deployment state. -/
theorem release_not_beneficiary_before_no_lockup_witness :
    release 1 0 initialState = Except.error Error.NotBeneficiary ∧
    step (Op.release 1 0) initialState = initialState :=
  release_not_beneficiary_before_no_lockup initialState 1 0 (by decide)
    (by decide)

end SimpleLockup
